import Mathlib

/-!
Verification of the hand-bubble-shooter game core.

Shallow embedding of the Python sources:
  src/domain/models.py            (Point, Hand, DetectionResult, Bubble)
  src/domain/gesture_detector.py  (GestureDetector.is_hand_closed, get_index_finger_tip)
  src/presentation/bubble_game.py (BubbleGame.update, _spawn_bubble, check_collisions, reset)
  src/presentation/menu_system.py (MenuSystem.check_menu_selection)
  src/presentation/bubble_game_viewer.py (per-tick pointer smoothing in run)

Python floats are modelled as rationals; wall-clock reads (time.time()) and
random draws (random.randint / random.uniform / random.choice) are passed in
as explicit parameters, with the RNG range contracts appearing as hypotheses
where a claim needs them.  np.sqrt-based comparisons are embedded in the
equivalent squared form (kept exactly equivalent, including the sign of the
right-hand side), and are related to the real square root in the theorems.
-/

/-- models.py `Point`: a 2D point with optional depth. -/
structure Point where
  x : ℚ
  y : ℚ
  z : Option ℚ := none
deriving DecidableEq

/-- models.py `Hand`: landmarks plus handedness label and confidence. -/
structure Hand where
  landmarks : List Point
  handedness : String
  confidence : ℚ
deriving DecidableEq

/-- models.py `DetectionResult`: hands of one frame plus a timestamp. -/
structure DetectionResult where
  hands : List Hand
  timestamp : ℚ
deriving DecidableEq

/-- models.py `Bubble`. `radius` and `points` are Python ints. -/
structure Bubble where
  x : ℚ
  y : ℚ
  radius : ℤ
  velocity_x : ℚ
  velocity_y : ℚ
  color : ℤ × ℤ × ℤ
  id : ℕ
  points : ℤ := 10
deriving DecidableEq

/-- models.py `HandLandmark` enum values used by the gesture detector. -/
def WRIST : ℕ := 0

/-- models.py `HandLandmark.THUMB_IP`. -/
def THUMB_IP : ℕ := 3

/-- models.py `HandLandmark.THUMB_TIP`. -/
def THUMB_TIP : ℕ := 4

/-- models.py `HandLandmark.INDEX_FINGER_PIP`. -/
def INDEX_FINGER_PIP : ℕ := 6

/-- models.py `HandLandmark.INDEX_FINGER_TIP`. -/
def INDEX_FINGER_TIP : ℕ := 8

/-- models.py `HandLandmark.MIDDLE_FINGER_PIP`. -/
def MIDDLE_FINGER_PIP : ℕ := 10

/-- models.py `HandLandmark.MIDDLE_FINGER_TIP`. -/
def MIDDLE_FINGER_TIP : ℕ := 12

/-- models.py `HandLandmark.RING_FINGER_PIP`. -/
def RING_FINGER_PIP : ℕ := 14

/-- models.py `HandLandmark.RING_FINGER_TIP`. -/
def RING_FINGER_TIP : ℕ := 16

/-- models.py `HandLandmark.PINKY_PIP`. -/
def PINKY_PIP : ℕ := 18

/-- models.py `HandLandmark.PINKY_TIP`. -/
def PINKY_TIP : ℕ := 20

/-- gesture_detector.py: the `fingertips` list. -/
def fingertips : List ℕ :=
  [THUMB_TIP, INDEX_FINGER_TIP, MIDDLE_FINGER_TIP, RING_FINGER_TIP, PINKY_TIP]

/-- gesture_detector.py: the `pip_joints` list. -/
def pip_joints : List ℕ :=
  [THUMB_IP, INDEX_FINGER_PIP, MIDDLE_FINGER_PIP, RING_FINGER_PIP, PINKY_PIP]

/-- Landmark lookup `hand.landmarks[i]`; only evaluated at indices that the
length guard in `is_hand_closed` has already shown to be in range. -/
def lm (hand : Hand) (i : ℕ) : Point :=
  hand.landmarks.getD i ⟨0, 0, none⟩

/-- gesture_detector.py loop body: is the finger with tip index `tip_idx`
counted as closed?  For the thumb the source tests
`np.sqrt((tip.x-wrist.x)**2 + (tip.y-wrist.y)**2) < 0.15`; since the root is
nonnegative and `0.15 > 0`, this is exactly the squared test used here. -/
def fingerBent (wrist tip pip : Point) (tip_idx : ℕ) : Bool :=
  if tip_idx = THUMB_TIP then
    decide ((tip.x - wrist.x) ^ 2 + (tip.y - wrist.y) ^ 2 < (15 / 100 : ℚ) ^ 2)
  else
    decide (tip.y > pip.y)

/-- gesture_detector.py: the `closed_fingers` counter after the
`for tip_idx, pip_idx in zip(fingertips, pip_joints)` loop. -/
def closedFingers (hand : Hand) : ℕ :=
  let wrist := lm hand WRIST
  (List.zip fingertips pip_joints).foldl
    (fun n p => if fingerBent wrist (lm hand p.1) (lm hand p.2) p.1 then n + 1 else n) 0

/-- gesture_detector.py `GestureDetector.is_hand_closed`. -/
def is_hand_closed (hand : Hand) : Bool :=
  if hand.landmarks.length < 21 then false
  else decide (4 ≤ closedFingers hand)

/-- gesture_detector.py `GestureDetector.get_index_finger_tip`:
`landmarks[8]` when the list is long enough, else `None`. -/
def get_index_finger_tip (hand : Hand) : Option Point :=
  hand.landmarks.get? INDEX_FINGER_TIP

/-! ### Spec-side description of the gesture classifier (for claim C3)

These definitions follow the words of the specification, §4.1: thumb bent iff
the Euclidean distance (a real square root) from thumb tip to wrist is
strictly below 0.15; any other finger bent iff its tip's normalized y strictly
exceeds its PIP joint's y; closed iff at least 4 of the 5 fingers are bent. -/

/-- Spec §4.1: the thumb counts as bent iff the Euclidean distance from
thumb-tip to wrist in normalized coordinates is strictly less than 0.15. -/
def specThumbBent (hand : Hand) : Prop :=
  Real.sqrt ((((lm hand THUMB_TIP).x - (lm hand WRIST).x : ℚ) : ℝ) ^ 2 +
      (((lm hand THUMB_TIP).y - (lm hand WRIST).y : ℚ) : ℝ) ^ 2) < 15 / 100

/-- Spec §4.1: a non-thumb finger counts as bent iff its tip's normalized y
strictly exceeds its PIP joint's normalized y. -/
def specFingerBent (hand : Hand) (tipIdx pipIdx : ℕ) : Prop :=
  (lm hand pipIdx).y < (lm hand tipIdx).y

/-- "At least 4 of 5 hold". -/
def atLeastFour (a b c d e : Prop) : Prop :=
  (a ∧ b ∧ c ∧ d) ∨ (a ∧ b ∧ c ∧ e) ∨ (a ∧ b ∧ d ∧ e) ∨
    (a ∧ c ∧ d ∧ e) ∨ (b ∧ c ∧ d ∧ e)

/-- Spec §4.1: the hand is classified closed iff at least 4 of the 5 fingers
are bent. -/
def spec_is_closed (hand : Hand) : Prop :=
  atLeastFour (specThumbBent hand)
    (specFingerBent hand INDEX_FINGER_TIP INDEX_FINGER_PIP)
    (specFingerBent hand MIDDLE_FINGER_TIP MIDDLE_FINGER_PIP)
    (specFingerBent hand RING_FINGER_TIP RING_FINGER_PIP)
    (specFingerBent hand PINKY_TIP PINKY_PIP)

/-- The squared thumb test in the code equals the spec's Euclidean one. -/
theorem fingerBent_thumb_iff (hand : Hand) :
    fingerBent (lm hand WRIST) (lm hand THUMB_TIP) (lm hand THUMB_IP) THUMB_TIP = true ↔
      specThumbBent hand := by
  rw [fingerBent, if_pos rfl, decide_eq_true_iff, specThumbBent,
    Real.sqrt_lt' (by norm_num),
    show ((15 : ℝ) / 100) ^ 2 = (((15 / 100 : ℚ) ^ 2 : ℚ) : ℝ) by norm_num]
  exact_mod_cast Iff.rfl

/-- The code's y-comparison for a non-thumb finger equals the spec's. -/
theorem fingerBent_other_iff (hand : Hand) (tipIdx pipIdx : ℕ) (h : tipIdx ≠ THUMB_TIP) :
    fingerBent (lm hand WRIST) (lm hand tipIdx) (lm hand pipIdx) tipIdx = true ↔
      specFingerBent hand tipIdx pipIdx := by
  rw [fingerBent, if_neg h, decide_eq_true_iff, specFingerBent]

/-- C2: a Hand with fewer than 21 landmarks is reported as not closed
(`is_hand_closed` returns `false` instead of failing). -/
theorem short_hand_is_not_closed (hand : Hand) (h : hand.landmarks.length < 21) :
    is_hand_closed hand = false := by
  simp [is_hand_closed, h]

/-- Witness for C2 at a concrete malformed hand (no landmarks at all). -/
theorem short_hand_is_not_closed_witness :
    (Hand.mk [] "Left" 1).landmarks.length < 21 ∧
      is_hand_closed (Hand.mk [] "Left" 1) = false :=
  ⟨by decide, short_hand_is_not_closed (Hand.mk [] "Left" 1) (by decide)⟩

/-- C3: for a Hand with at least 21 landmarks, `is_hand_closed` returns true
iff at least 4 of the 5 fingers are bent, with the thumb bent iff its
Euclidean tip-to-wrist distance is strictly below 0.15 and every other finger
bent iff its tip's normalized y strictly exceeds its PIP joint's y. -/
theorem is_hand_closed_iff_spec (hand : Hand) (h : 21 ≤ hand.landmarks.length) :
    is_hand_closed hand = true ↔ spec_is_closed hand := by
  have hlen : ¬ hand.landmarks.length < 21 := by omega
  rw [is_hand_closed, if_neg hlen, decide_eq_true_iff]
  have h1 := fingerBent_thumb_iff hand
  have h2 := fingerBent_other_iff hand INDEX_FINGER_TIP INDEX_FINGER_PIP (by decide)
  have h3 := fingerBent_other_iff hand MIDDLE_FINGER_TIP MIDDLE_FINGER_PIP (by decide)
  have h4 := fingerBent_other_iff hand RING_FINGER_TIP RING_FINGER_PIP (by decide)
  have h5 := fingerBent_other_iff hand PINKY_TIP PINKY_PIP (by decide)
  rw [closedFingers]
  simp only [fingertips, pip_joints, List.zip_cons_cons, List.zip_nil_right,
    List.foldl_cons, List.foldl_nil]
  cases hb1 : fingerBent (lm hand WRIST) (lm hand THUMB_TIP) (lm hand THUMB_IP) THUMB_TIP <;>
  cases hb2 : fingerBent (lm hand WRIST) (lm hand INDEX_FINGER_TIP)
      (lm hand INDEX_FINGER_PIP) INDEX_FINGER_TIP <;>
  cases hb3 : fingerBent (lm hand WRIST) (lm hand MIDDLE_FINGER_TIP)
      (lm hand MIDDLE_FINGER_PIP) MIDDLE_FINGER_TIP <;>
  cases hb4 : fingerBent (lm hand WRIST) (lm hand RING_FINGER_TIP)
      (lm hand RING_FINGER_PIP) RING_FINGER_TIP <;>
  cases hb5 : fingerBent (lm hand WRIST) (lm hand PINKY_TIP)
      (lm hand PINKY_PIP) PINKY_TIP <;>
  simp_all [spec_is_closed, atLeastFour]

/-- A concrete well-formed hand: the four non-thumb fingertips sit below
their PIP joints in camera space (tip y 4/5 > pip y 1/5) and the thumb tip is
far from the wrist, so 4 of 5 fingers count as bent. -/
def closedHand : Hand :=
  ⟨[⟨1/2, 1/2, none⟩, ⟨1/2, 1/2, none⟩, ⟨1/2, 1/2, none⟩, ⟨1/2, 1/2, none⟩,
    ⟨1/2, 4/5, none⟩, ⟨1/2, 1/2, none⟩, ⟨1/2, 1/5, none⟩, ⟨1/2, 1/2, none⟩,
    ⟨1/2, 4/5, none⟩, ⟨1/2, 1/2, none⟩, ⟨1/2, 1/5, none⟩, ⟨1/2, 1/2, none⟩,
    ⟨1/2, 4/5, none⟩, ⟨1/2, 1/2, none⟩, ⟨1/2, 1/5, none⟩, ⟨1/2, 1/2, none⟩,
    ⟨1/2, 4/5, none⟩, ⟨1/2, 1/2, none⟩, ⟨1/2, 1/5, none⟩, ⟨1/2, 1/2, none⟩,
    ⟨1/2, 4/5, none⟩], "Right", 9/10⟩

/-- Witness for C3 at the concrete 21-landmark hand. -/
theorem is_hand_closed_iff_spec_witness :
    21 ≤ closedHand.landmarks.length ∧
      (is_hand_closed closedHand = true ↔ spec_is_closed closedHand) :=
  ⟨by decide, is_hand_closed_iff_spec closedHand (by decide)⟩

/-! ### bubble_game.py: game state and operations

`time.time()` reads are passed as the explicit `current_time` argument, and
the random draws of `_spawn_bubble` are gathered in `SpawnDraws`. -/

/-- The state held by `BubbleGame.__init__`: configuration plus the mutable
session state (`bubbles`, `next_bubble_id`, `last_spawn_time`, `score`,
`bubbles_popped`). -/
structure GameState where
  screen_width : ℤ
  screen_height : ℤ
  max_bubbles : ℕ
  spawn_rate : ℚ
  min_radius : ℤ
  max_radius : ℤ
  bubbles : List Bubble
  next_bubble_id : ℕ
  last_spawn_time : ℚ
  score : ℤ
  bubbles_popped : ℕ
deriving DecidableEq

/-- The random draws consumed by one `_spawn_bubble` call:
`radius` from `random.randint(min_radius, max_radius)`, `side` from
`random.randint(0, 3)`, `pos` from the positional `random.uniform`, `v1`/`v2`
from the two velocity `random.uniform` calls, `color` from `random.choice`. -/
structure SpawnDraws where
  radius : ℤ
  side : ℕ
  pos : ℚ
  v1 : ℚ
  v2 : ℚ
  color : ℤ × ℤ × ℤ
deriving DecidableEq

/-- bubble_game.py `_spawn_bubble`: the edge-dependent position and velocity
of the new bubble (`x`, `y`, `velocity_x`, `velocity_y` in source order). -/
def spawnCoords (d : SpawnDraws) : ℚ × ℚ × ℚ × ℚ :=
  if d.side = 0 then (d.pos, 0, d.v1, d.v2)
  else if d.side = 1 then (1, d.pos, d.v1, d.v2)
  else if d.side = 2 then (d.pos, 1, d.v1, d.v2)
  else (0, d.pos, d.v1, d.v2)

/-- bubble_game.py `_spawn_bubble`: the `bubble = Bubble(...)` literal, with
`points = radius // 5` (Python floor division; `Int` division by the positive
literal 5 is the same floor division) and id `next_bubble_id`. -/
def spawnedBubble (g : GameState) (d : SpawnDraws) : Bubble :=
  { x := (spawnCoords d).1, y := (spawnCoords d).2.1, radius := d.radius,
    velocity_x := (spawnCoords d).2.2.1, velocity_y := (spawnCoords d).2.2.2,
    color := d.color, id := g.next_bubble_id, points := d.radius / 5 }

/-- bubble_game.py `_spawn_bubble`: builds the new Bubble, increments the id
counter and appends the bubble. -/
def _spawn_bubble (g : GameState) (d : SpawnDraws) : GameState :=
  { g with next_bubble_id := g.next_bubble_id + 1,
           bubbles := g.bubbles ++ [spawnedBubble g d] }

/-- bubble_game.py `update` loop body: integrate with the clamped delta, then
bounce off the four walls in pixel space. -/
def updateBubble (w h : ℤ) (delta_time : ℚ) (b : Bubble) : Bubble :=
  let clamped_delta := min delta_time (1 / 10)
  let x1 := b.x + b.velocity_x * clamped_delta
  let y1 := b.y + b.velocity_y * clamped_delta
  let pixel_x := x1 * w
  let pixel_y := y1 * h
  let bx := if pixel_x - b.radius ≤ 0 ∨ pixel_x + b.radius ≥ w then
      (-b.velocity_x, max ((b.radius : ℚ) / w) (min x1 (1 - (b.radius : ℚ) / w)))
    else (b.velocity_x, x1)
  let by2 := if pixel_y - b.radius ≤ 0 ∨ pixel_y + b.radius ≥ h then
      (-b.velocity_y, max ((b.radius : ℚ) / h) (min y1 (1 - (b.radius : ℚ) / h)))
    else (b.velocity_y, y1)
  { b with x := bx.2, y := by2.2, velocity_x := bx.1, velocity_y := by2.1 }

/-- bubble_game.py `update`: the safety check
`x < -0.1 or x > 1.1 or y < -0.1 or y > 1.1`. -/
def offScreen (b : Bubble) : Bool :=
  decide (b.x < -(1 / 10 : ℚ)) || decide (b.x > 11 / 10) ||
    decide (b.y < -(1 / 10 : ℚ)) || decide (b.y > 11 / 10)

/-- bubble_game.py `update`: maybe spawn (resetting the spawn clock), then
move every bubble (including a just-spawned one) and drop the off-screen
ones.  The per-object mutation plus remove-by-value of the source is the
map-then-filter on final values. -/
def update (g : GameState) (delta_time current_time : ℚ) (d : SpawnDraws) : GameState :=
  let g1 :=
    if g.bubbles.length < g.max_bubbles ∧ 1 / g.spawn_rate ≤ current_time - g.last_spawn_time
    then { _spawn_bubble g d with last_spawn_time := current_time }
    else g
  let moved := g1.bubbles.map (updateBubble g1.screen_width g1.screen_height delta_time)
  { g1 with bubbles := moved.filter (fun b => !(offScreen b)) }

/-- bubble_game.py `check_collisions` hit test: the source compares
`np.sqrt(dx**2 + dy**2) <= bubble.radius * 1.1` in pixel space; with the root
nonnegative this is `0 ≤ rhs ∧ dx^2 + dy^2 ≤ rhs^2`, encoded here exactly. -/
def hitTest (w h : ℤ) (px py : ℚ) (b : Bubble) : Bool :=
  let dx := px * w - b.x * w
  let dy := py * h - b.y * h
  let rhs := (b.radius : ℚ) * (11 / 10)
  decide (0 ≤ rhs ∧ dx ^ 2 + dy ^ 2 ≤ rhs ^ 2)

/-- bubble_game.py `check_collisions` loop body: skip a bubble already in
`hit_bubbles`, otherwise on a hit append it, add its points to the score and
bump the popped count.  The accumulator is (hit_bubbles, score,
bubbles_popped). -/
def collideStep (w h : ℤ) (px py : ℚ) (acc : List Bubble × ℤ × ℕ) (b : Bubble) :
    List Bubble × ℤ × ℕ :=
  if b ∈ acc.1 then acc
  else if hitTest w h px py b then (acc.1 ++ [b], acc.2.1 + b.points, acc.2.2 + 1)
  else acc

/-- bubble_game.py `check_collisions`: returns the hit list and the new
state.  After the loop each hit is removed from `bubbles` by value
(first occurrence), as `list.remove` does. -/
def check_collisions (g : GameState) (px py : ℚ) (is_shooting : Bool) :
    List Bubble × GameState :=
  if !is_shooting then ([], g)
  else
    let res := g.bubbles.foldl (collideStep g.screen_width g.screen_height px py)
      ([], g.score, g.bubbles_popped)
    let remaining := res.1.foldl (fun bs b => bs.erase b) g.bubbles
    (res.1, { g with bubbles := remaining, score := res.2.1, bubbles_popped := res.2.2 })

/-- bubble_game.py `reset`: clear the bubbles, zero score and popped count,
set the spawn clock to the current `time.time()` reading. -/
def reset (g : GameState) (current_time : ℚ) : GameState :=
  { g with bubbles := [], score := 0, bubbles_popped := 0,
           last_spawn_time := current_time }

/-- Pixel-space squared distance from the pointer to a bubble's center, over
the reals (the argument of `np.sqrt` in `check_collisions`). -/
def pixDistSq (w h : ℤ) (px py : ℚ) (b : Bubble) : ℝ :=
  ((px * w - b.x * w : ℚ) : ℝ) ^ 2 + ((py * h - b.y * h : ℚ) : ℝ) ^ 2

/-- Spec §4.3: a hit occurs when the Euclidean pixel distance from the
pointer to the bubble's center is at most `radius * 1.1`. -/
def hitsPointer (w h : ℤ) (px py : ℚ) (b : Bubble) : Prop :=
  Real.sqrt (pixDistSq w h px py b) ≤ (b.radius : ℝ) * (11 / 10)

/-- The code's squared hit test agrees with the spec's Euclidean one. -/
theorem hitTest_iff (w h : ℤ) (px py : ℚ) (b : Bubble) :
    hitTest w h px py b = true ↔ hitsPointer w h px py b := by
  simp only [hitTest, hitsPointer, pixDistSq, decide_eq_true_iff]
  rw [Real.sqrt_le_iff,
    show ((b.radius : ℝ) * (11 / 10)) = (((b.radius : ℚ) * (11 / 10) : ℚ) : ℝ) by
      push_cast; ring]
  constructor <;> rintro ⟨h1, h2⟩ <;> constructor <;>
    first
      | exact_mod_cast h1
      | exact_mod_cast h2

/-- On a duplicate-free bubble list whose elements are not in the hit
accumulator yet, the `check_collisions` loop collects exactly the bubbles
passing the hit test, in order, and adds their points and their number. -/
theorem collide_foldl (w h : ℤ) (px py : ℚ) (l : List Bubble) :
    ∀ (h0 : List Bubble) (s0 : ℤ) (p0 : ℕ), l.Nodup → (∀ b ∈ l, b ∉ h0) →
      l.foldl (collideStep w h px py) (h0, s0, p0) =
        (h0 ++ l.filter (hitTest w h px py),
          s0 + ((l.filter (hitTest w h px py)).map Bubble.points).sum,
          p0 + (l.filter (hitTest w h px py)).length) := by
  induction l with
  | nil => intro h0 s0 p0 _ _; simp
  | cons b t ih =>
    intro h0 s0 p0 hnd hdis
    have hb0 : b ∉ h0 := hdis b (by simp)
    obtain ⟨hbt, hndt⟩ := List.nodup_cons.mp hnd
    by_cases hhit : hitTest w h px py b = true
    · have step1 : collideStep w h px py (h0, s0, p0) b = (h0 ++ [b], s0 + b.points, p0 + 1) := by
        simp [collideStep, hb0, hhit]
      have hdis2 : ∀ x ∈ t, x ∉ h0 ++ [b] := by
        intro x hx
        simp only [List.mem_append, List.mem_singleton]
        rintro (hxh | hxb)
        · exact hdis x (by simp [hx]) hxh
        · exact hbt (hxb ▸ hx)
      rw [List.foldl_cons, step1, ih (h0 ++ [b]) (s0 + b.points) (p0 + 1) hndt hdis2]
      simp only [List.filter_cons, hhit, if_pos, List.map_cons, List.sum_cons,
        List.length_cons, List.append_assoc, List.singleton_append, Prod.mk.injEq]
      exact ⟨trivial, by ring, by omega⟩
    · have step1 : collideStep w h px py (h0, s0, p0) b = (h0, s0, p0) := by
        simp [collideStep, hb0, hhit]
      rw [List.foldl_cons, step1,
        ih h0 s0 p0 hndt (fun x hx => hdis x (by simp [hx]))]
      simp [List.filter_cons, hhit]

/-- Erasing a batch of elements not equal to the head leaves the head. -/
theorem foldl_erase_cons (b : Bubble) (hits : List Bubble) :
    ∀ (t : List Bubble), b ∉ hits →
      hits.foldl (fun bs x => bs.erase x) (b :: t) =
        b :: hits.foldl (fun bs x => bs.erase x) t := by
  induction hits with
  | nil => intro t _; rfl
  | cons x xs ih =>
    intro t hb
    have hxb : b ≠ x := fun heq => hb (by simp [heq])
    rw [List.foldl_cons, List.foldl_cons,
      show (b :: t).erase x = b :: t.erase x by rw [List.erase_cons_tail]; simp [hxb]]
    exact ih (t.erase x) (fun hx => hb (by simp [hx]))

/-- On a duplicate-free list, removing every element that passes `p` by
value (as the `list.remove` loop of `check_collisions` does) is filtering by
`¬ p`. -/
theorem foldl_erase_filter (p : Bubble → Bool) (l : List Bubble) (hnd : l.Nodup) :
    (l.filter p).foldl (fun bs x => bs.erase x) l = l.filter (fun b => !(p b)) := by
  induction l with
  | nil => rfl
  | cons b t ih =>
    obtain ⟨hbt, hndt⟩ := List.nodup_cons.mp hnd
    by_cases hp : p b = true
    · rw [List.filter_cons_of_pos hp, List.foldl_cons, List.erase_cons_head,
        ih hndt, List.filter_cons_of_neg (by simp [hp])]
    · have hb : b ∉ t.filter p := fun hx => hbt (List.mem_of_mem_filter hx)
      rw [List.filter_cons_of_neg hp, foldl_erase_cons b (t.filter p) t hb,
        ih hndt, List.filter_cons_of_pos (by simp [hp])]

/-- C1: `check_collisions` with `is_shooting = false` is a no-op returning
the empty list; with `is_shooting = true` on a duplicate-free bubble list it
pops exactly the active bubbles whose Euclidean pixel distance to the pointer
is at most `radius * 1.1` (no single-hit limit), removing each from the
active set, adding its points to the score, bumping the popped counter once
per pop, and returning them; the boundary is inclusive: distance exactly
`radius * 1.1` hits, `radius * 1.1 + ε` does not. -/
theorem check_collisions_spec (g : GameState) (px py : ℚ) :
    check_collisions g px py false = ([], g) ∧
    (g.bubbles.Nodup →
      (check_collisions g px py true).1 =
          g.bubbles.filter (hitTest g.screen_width g.screen_height px py) ∧
        (check_collisions g px py true).2.bubbles =
          g.bubbles.filter (fun b => !(hitTest g.screen_width g.screen_height px py b)) ∧
        (check_collisions g px py true).2.score =
          g.score + ((g.bubbles.filter
            (hitTest g.screen_width g.screen_height px py)).map Bubble.points).sum ∧
        (check_collisions g px py true).2.bubbles_popped =
          g.bubbles_popped + (g.bubbles.filter
            (hitTest g.screen_width g.screen_height px py)).length ∧
        (∀ b, b ∈ (check_collisions g px py true).1 ↔
          b ∈ g.bubbles ∧ hitsPointer g.screen_width g.screen_height px py b) ∧
        (∀ b, b ∈ (check_collisions g px py true).2.bubbles ↔
          b ∈ g.bubbles ∧ ¬ hitsPointer g.screen_width g.screen_height px py b)) ∧
    (∀ b : Bubble,
      Real.sqrt (pixDistSq g.screen_width g.screen_height px py b) =
          (b.radius : ℝ) * (11 / 10) →
        hitTest g.screen_width g.screen_height px py b = true) ∧
    (∀ (b : Bubble) (ε : ℝ), 0 < ε →
      Real.sqrt (pixDistSq g.screen_width g.screen_height px py b) =
          (b.radius : ℝ) * (11 / 10) + ε →
        hitTest g.screen_width g.screen_height px py b = false) := by
  refine ⟨by simp [check_collisions], ?_, ?_, ?_⟩
  · intro hnd
    have hfold := collide_foldl g.screen_width g.screen_height px py g.bubbles
      [] g.score g.bubbles_popped hnd (by simp)
    rw [List.nil_append] at hfold
    have h1 : (check_collisions g px py true).1 =
        g.bubbles.filter (hitTest g.screen_width g.screen_height px py) := by
      show (g.bubbles.foldl (collideStep g.screen_width g.screen_height px py)
        ([], g.score, g.bubbles_popped)).1 = _
      rw [hfold]
    have hrem : (check_collisions g px py true).2.bubbles =
        g.bubbles.filter (fun b => !(hitTest g.screen_width g.screen_height px py b)) := by
      show ((g.bubbles.foldl (collideStep g.screen_width g.screen_height px py)
          ([], g.score, g.bubbles_popped)).1).foldl (fun bs b => bs.erase b) g.bubbles = _
      rw [hfold]
      exact foldl_erase_filter (hitTest g.screen_width g.screen_height px py) g.bubbles hnd
    have hsc : (check_collisions g px py true).2.score =
        g.score + ((g.bubbles.filter
          (hitTest g.screen_width g.screen_height px py)).map Bubble.points).sum := by
      show (g.bubbles.foldl (collideStep g.screen_width g.screen_height px py)
        ([], g.score, g.bubbles_popped)).2.1 = _
      rw [hfold]
    have hpc : (check_collisions g px py true).2.bubbles_popped =
        g.bubbles_popped + (g.bubbles.filter
          (hitTest g.screen_width g.screen_height px py)).length := by
      show (g.bubbles.foldl (collideStep g.screen_width g.screen_height px py)
        ([], g.score, g.bubbles_popped)).2.2 = _
      rw [hfold]
    refine ⟨h1, hrem, hsc, hpc, ?_, ?_⟩
    · intro b
      rw [h1, List.mem_filter]
      exact and_congr_right fun _ =>
        hitTest_iff g.screen_width g.screen_height px py b
    · intro b
      rw [hrem, List.mem_filter, Bool.not_eq_true']
      exact and_congr_right fun _ =>
        Bool.eq_false_iff.trans
          (not_congr (hitTest_iff g.screen_width g.screen_height px py b))
  · intro b heq
    rw [hitTest_iff, hitsPointer, heq]
  · intro b ε hε heq
    rw [Bool.eq_false_iff]
    intro hT
    have hle := (hitTest_iff g.screen_width g.screen_height px py b).mp hT
    rw [hitsPointer, heq] at hle
    linarith

/-- A concrete bubble for the C1 witness: radius 40, centered mid-screen. -/
def bC1 : Bubble :=
  { x := 1/2, y := 1/2, radius := 40, velocity_x := 0, velocity_y := 0,
    color := (255, 100, 100), id := 0, points := 8 }

/-- A concrete game state for the C1 witness. -/
def gC1 : GameState :=
  { screen_width := 800, screen_height := 600, max_bubbles := 5, spawn_rate := 4/5,
    min_radius := 30, max_radius := 50, bubbles := [bC1], next_bubble_id := 1,
    last_spawn_time := 0, score := 0, bubbles_popped := 0 }

/-- Witness for C1 at a concrete one-bubble state, discharging the
duplicate-freedom hypothesis. -/
theorem check_collisions_spec_witness :
    check_collisions gC1 (1/2) (1/2) false = ([], gC1) ∧
      (check_collisions gC1 (1/2) (1/2) true).2.score =
        gC1.score + ((gC1.bubbles.filter
          (hitTest gC1.screen_width gC1.screen_height (1/2) (1/2))).map Bubble.points).sum := by
  have hmain := check_collisions_spec gC1 (1/2) (1/2)
  exact ⟨hmain.1, (hmain.2.1 (by decide)).2.2.1⟩

/-- With `delta_time = 0` a bubble strictly inside (or exactly touching) the
walls keeps its position and id through the `update` loop body. -/
theorem updateBubble_interior (w h : ℤ) (b : Bubble)
    (hx1 : (b.radius : ℚ) / w ≤ b.x) (hx2 : b.x ≤ 1 - (b.radius : ℚ) / w)
    (hy1 : (b.radius : ℚ) / h ≤ b.y) (hy2 : b.y ≤ 1 - (b.radius : ℚ) / h) :
    (updateBubble w h 0 b).x = b.x ∧ (updateBubble w h 0 b).y = b.y ∧
      (updateBubble w h 0 b).id = b.id := by
  have hc : min (0 : ℚ) (1/10) = 0 := by norm_num
  refine ⟨?_, ?_, rfl⟩
  · simp only [updateBubble, hc, mul_zero, add_zero]
    split
    · rw [min_eq_left hx2, max_eq_right hx1]
    · rfl
  · simp only [updateBubble, hc, mul_zero, add_zero]
    split
    · rw [min_eq_left hy2, max_eq_right hy1]
    · rfl

/-- C7 counterexample bubble: freshly spawned on the left wall (x = 0). -/
def bC7 : Bubble :=
  { x := 0, y := 1/2, radius := 30, velocity_x := 1/10, velocity_y := 0,
    color := (100, 255, 100), id := 0, points := 6 }

/-- C7 counterexample state: one wall-contact bubble, spawning disabled by
the `max_bubbles` bound. -/
def gC7 : GameState :=
  { screen_width := 800, screen_height := 600, max_bubbles := 1, spawn_rate := 4/5,
    min_radius := 30, max_radius := 50, bubbles := [bC7], next_bubble_id := 1,
    last_spawn_time := 0, score := 0, bubbles_popped := 0 }

/-- Arbitrary spawn draws (unused in the C7 states, where no spawn fires). -/
def dC7 : SpawnDraws := { radius := 30, side := 0, pos := 1/2, v1 := 0, v2 := 0,
                          color := (0, 0, 0) }

/-- C7 as stated is false: `update(0)` clamps a wall-contact bubble, moving
its normalized x from 0 to 30/800 = 3/80 even though no time passed. -/
theorem update_zero_counterexample :
    (update gC7 0 0 dC7).bubbles.map Bubble.x ≠ gC7.bubbles.map Bubble.x := by
  norm_num [update, gC7, dC7, bC7, updateBubble, offScreen, _spawn_bubble, spawnCoords]

/-- C7 amended: `update(0)` always leaves the score unchanged, and leaves the
position (and id) of every previously active bubble unchanged provided the
bubble does not overlap a wall (its center stays within `radius` of neither
screen border, in pixel space); a wall-overlapping bubble is instead clamped
back on-screen. -/
theorem update_zero_spec (g : GameState) (ct : ℚ) (d : SpawnDraws) :
    (update g 0 ct d).score = g.score ∧
    ∀ b ∈ g.bubbles, 0 ≤ b.radius → 0 < g.screen_width → 0 < g.screen_height →
      (b.radius : ℚ) / g.screen_width ≤ b.x →
      b.x ≤ 1 - (b.radius : ℚ) / g.screen_width →
      (b.radius : ℚ) / g.screen_height ≤ b.y →
      b.y ≤ 1 - (b.radius : ℚ) / g.screen_height →
      ∃ b' ∈ (update g 0 ct d).bubbles, b'.id = b.id ∧ b'.x = b.x ∧ b'.y = b.y := by
  constructor
  · rw [update]
    split <;> rfl
  · intro b hb hr hw hh hx1 hx2 hy1 hy2
    obtain ⟨hex, hey, hei⟩ := updateBubble_interior g.screen_width g.screen_height b
      hx1 hx2 hy1 hy2
    have hx0 : (0 : ℚ) ≤ b.x := le_trans (by positivity) hx1
    have hx3 : b.x ≤ 1 := le_trans hx2 (by
      have : (0 : ℚ) ≤ (b.radius : ℚ) / g.screen_width := by positivity
      linarith)
    have hy0 : (0 : ℚ) ≤ b.y := le_trans (by positivity) hy1
    have hy3 : b.y ≤ 1 := le_trans hy2 (by
      have : (0 : ℚ) ≤ (b.radius : ℚ) / g.screen_height := by positivity
      linarith)
    refine ⟨updateBubble g.screen_width g.screen_height 0 b, ?_, hei, hex, hey⟩
    rw [update]
    split
    · simp only [List.mem_filter, List.mem_map]
      refine ⟨⟨b, ?_, rfl⟩, ?_⟩
      · exact List.mem_append_left _ hb
      · simp only [offScreen, hex, hey, Bool.not_eq_true']
        simp only [Bool.or_eq_false_iff, decide_eq_false_iff_not, not_lt]
        refine ⟨⟨⟨by linarith, by linarith⟩, by linarith⟩, by linarith⟩
    · simp only [List.mem_filter, List.mem_map]
      refine ⟨⟨b, hb, rfl⟩, ?_⟩
      simp only [offScreen, hex, hey, Bool.not_eq_true']
      simp only [Bool.or_eq_false_iff, decide_eq_false_iff_not, not_lt]
      refine ⟨⟨⟨by linarith, by linarith⟩, by linarith⟩, by linarith⟩

/-- Witness for the amended C7 at a concrete interior-bubble state. -/
theorem update_zero_spec_witness :
    (update gC1 0 0 dC7).score = gC1.score ∧
      ∃ b' ∈ (update gC1 0 0 dC7).bubbles, b'.id = bC1.id ∧ b'.x = bC1.x ∧ b'.y = bC1.y := by
  have hmain := update_zero_spec gC1 0 dC7
  exact ⟨hmain.1, hmain.2 bC1 (by simp [gC1]) (by norm_num [bC1]) (by norm_num [gC1])
    (by norm_num [gC1]) (by norm_num [gC1, bC1]) (by norm_num [gC1, bC1])
    (by norm_num [gC1, bC1]) (by norm_num [gC1, bC1])⟩

/-- C8: `reset` empties the active set, zeroes score and popped count, stamps
the spawn clock with the current time, and is idempotent at a fixed time
instant. -/
theorem reset_spec (g : GameState) (t : ℚ) :
    (reset g t).bubbles = [] ∧ (reset g t).score = 0 ∧
      (reset g t).bubbles_popped = 0 ∧ (reset g t).last_spawn_time = t ∧
      reset (reset g t) t = reset g t :=
  ⟨rfl, rfl, rfl, rfl, rfl⟩

/-- Removing a batch of elements by value yields a sublist. -/
theorem foldl_erase_sublist (hits : List Bubble) :
    ∀ l : List Bubble, (hits.foldl (fun bs b => bs.erase b) l).Sublist l := by
  induction hits with
  | nil => intro l; exact List.Sublist.refl l
  | cons x xs ih => intro l; exact (ih (l.erase x)).trans (List.erase_sublist x l)

/-- The bubble list after `update`: maybe-spawn, move, drop off-screen. -/
theorem update_bubbles_eq (g : GameState) (dt ct : ℚ) (d : SpawnDraws) :
    (update g dt ct d).bubbles =
      ((if g.bubbles.length < g.max_bubbles ∧ 1 / g.spawn_rate ≤ ct - g.last_spawn_time
        then g.bubbles ++ [spawnedBubble g d] else g.bubbles).map
          (updateBubble g.screen_width g.screen_height dt)).filter
        (fun b => !(offScreen b)) := by
  by_cases hc : g.bubbles.length < g.max_bubbles ∧ 1 / g.spawn_rate ≤ ct - g.last_spawn_time
  · simp only [update, if_pos hc]
    try rfl
  · simp only [update, if_neg hc]
    try rfl

/-- `check_collisions` when not shooting leaves the bubble list alone, and
when shooting only ever removes bubbles (sublist). -/
theorem check_collisions_bubbles_sublist (g : GameState) (px py : ℚ) (s : Bool) :
    ((check_collisions g px py s).2.bubbles).Sublist g.bubbles := by
  cases s with
  | false => simp [check_collisions]
  | true =>
    show ((g.bubbles.foldl (collideStep g.screen_width g.screen_height px py)
      ([], g.score, g.bubbles_popped)).1.foldl
        (fun bs b => bs.erase b) g.bubbles).Sublist g.bubbles
    exact foldl_erase_sublist _ g.bubbles

/-- `update` moves bubbles but every survivor comes from a pre-move bubble
(old or freshly spawned) with the same radius, id, points and color. -/
theorem mem_update_bubbles (g : GameState) (dt ct : ℚ) (d : SpawnDraws) (b' : Bubble)
    (hb' : b' ∈ (update g dt ct d).bubbles) :
    ∃ b0, (b0 ∈ g.bubbles ∨ b0 = spawnedBubble g d) ∧
      b'.radius = b0.radius ∧ b'.id = b0.id ∧ b'.points = b0.points ∧
        b'.color = b0.color := by
  rw [update_bubbles_eq] at hb'
  obtain ⟨⟨b0, hb0, rfl⟩, -⟩ := List.mem_filter.mp hb' |>.imp (fun h => List.mem_map.mp h) id
  refine ⟨b0, ?_, rfl, rfl, rfl, rfl⟩
  by_cases hc : g.bubbles.length < g.max_bubbles ∧ 1 / g.spawn_rate ≤ ct - g.last_spawn_time
  · rw [if_pos hc] at hb0
    rcases List.mem_append.mp hb0 with hold | hnew
    · exact Or.inl hold
    · exact Or.inr (List.mem_singleton.mp hnew)
  · rw [if_neg hc] at hb0
    exact Or.inl hb0

/-- C9: a spawned bubble carries exactly the drawn radius and the point value
`radius // 5` (radius 50 gives 10 points); and since `update`,
`check_collisions` and `reset` never change a bubble's radius, the invariant
`min_radius ≤ radius ≤ max_radius` — granted by the `randint` range contract
at spawn time — is preserved by every operation. -/
theorem bubble_radius_spec (g : GameState) (d : SpawnDraws) (dt ct px py : ℚ) (s : Bool) :
    (_spawn_bubble g d).bubbles = g.bubbles ++ [spawnedBubble g d] ∧
    (spawnedBubble g d).radius = d.radius ∧
    (spawnedBubble g d).points = d.radius / 5 ∧
    (d.radius = 50 → (spawnedBubble g d).points = 10) ∧
    ((∀ b ∈ g.bubbles, g.min_radius ≤ b.radius ∧ b.radius ≤ g.max_radius) →
      g.min_radius ≤ d.radius → d.radius ≤ g.max_radius →
      (∀ b ∈ (_spawn_bubble g d).bubbles,
        g.min_radius ≤ b.radius ∧ b.radius ≤ g.max_radius) ∧
      (∀ b ∈ (update g dt ct d).bubbles,
        g.min_radius ≤ b.radius ∧ b.radius ≤ g.max_radius)) ∧
    ((∀ b ∈ g.bubbles, g.min_radius ≤ b.radius ∧ b.radius ≤ g.max_radius) →
      ∀ b ∈ (check_collisions g px py s).2.bubbles,
        g.min_radius ≤ b.radius ∧ b.radius ≤ g.max_radius) ∧
    (∀ b ∈ (reset g ct).bubbles, g.min_radius ≤ b.radius ∧ b.radius ≤ g.max_radius) := by
  refine ⟨rfl, rfl, rfl, ?_, ?_, ?_, ?_⟩
  · intro h50
    simp [spawnedBubble, h50]
  · intro hrange hmin hmax
    constructor
    · intro b hb
      rcases List.mem_append.mp hb with hold | hnew
      · exact hrange b hold
      · rw [List.mem_singleton.mp hnew]
        exact ⟨hmin, hmax⟩
    · intro b hb
      obtain ⟨b0, hb0, hrad, -, -, -⟩ := mem_update_bubbles g dt ct d b hb
      rw [hrad]
      rcases hb0 with hold | hnew
      · exact hrange b0 hold
      · rw [hnew]
        exact ⟨hmin, hmax⟩
  · intro hrange b hb
    exact hrange b ((check_collisions_bubbles_sublist g px py s).subset hb)
  · intro b hb
    exact absurd hb (by simp [reset])

/-- Witness for C9 at a concrete state and draw (radius 30 within [30, 50]). -/
theorem bubble_radius_spec_witness :
    (spawnedBubble gC1 dC7).points = dC7.radius / 5 ∧
      (dC7.radius = 50 → (spawnedBubble gC1 dC7).points = 10) ∧
      (∀ b ∈ (update gC1 0 0 dC7).bubbles,
        gC1.min_radius ≤ b.radius ∧ b.radius ≤ gC1.max_radius) := by
  have hmain := bubble_radius_spec gC1 dC7 0 0 (1/2) (1/2) false
  have hrange : ∀ b ∈ gC1.bubbles, gC1.min_radius ≤ b.radius ∧ b.radius ≤ gC1.max_radius := by
    intro b hb
    simp only [gC1, List.mem_singleton] at hb
    subst hb
    exact ⟨by norm_num [gC1, bC1], by norm_num [gC1, bC1]⟩
  exact ⟨hmain.2.2.1, hmain.2.2.2.1,
    (hmain.2.2.2.2.1 hrange (by norm_num [gC1, dC7]) (by norm_num [gC1, dC7])).2⟩

/-- C10 invariant: active bubble ids are pairwise distinct and all strictly
below the `next_bubble_id` counter. -/
def idInvariant (g : GameState) : Prop :=
  (g.bubbles.map Bubble.id).Nodup ∧ ∀ b ∈ g.bubbles, b.id < g.next_bubble_id

/-- Moving bubbles does not change their ids. -/
theorem map_id_updateBubble (w h : ℤ) (dt : ℚ) (l : List Bubble) :
    (l.map (updateBubble w h dt)).map Bubble.id = l.map Bubble.id := by
  rw [List.map_map]
  rfl

/-- `update`'s id counter: bumped exactly when a spawn fires. -/
theorem update_next_eq (g : GameState) (dt ct : ℚ) (d : SpawnDraws) :
    (update g dt ct d).next_bubble_id =
      if g.bubbles.length < g.max_bubbles ∧ 1 / g.spawn_rate ≤ ct - g.last_spawn_time
      then g.next_bubble_id + 1 else g.next_bubble_id := by
  by_cases hc : g.bubbles.length < g.max_bubbles ∧ 1 / g.spawn_rate ≤ ct - g.last_spawn_time
  · simp only [update, if_pos hc]
    try rfl
  · simp only [update, if_neg hc]
    try rfl

/-- C10 (implicit): each spawn stamps the current counter value on the new
bubble and then increments the counter; `reset` leaves the counter alone; and
the invariant "active ids are pairwise distinct and all below the counter" is
preserved by `_spawn_bubble`, `update`, `check_collisions` and `reset`, so
within a session ids are never reused, even across resets. -/
theorem bubble_id_spec (g : GameState) (d : SpawnDraws) (dt ct px py : ℚ) (s : Bool) :
    (spawnedBubble g d).id = g.next_bubble_id ∧
    (_spawn_bubble g d).next_bubble_id = g.next_bubble_id + 1 ∧
    (reset g ct).next_bubble_id = g.next_bubble_id ∧
    (idInvariant g →
      idInvariant (_spawn_bubble g d) ∧ idInvariant (update g dt ct d) ∧
        idInvariant (check_collisions g px py s).2 ∧ idInvariant (reset g ct)) := by
  refine ⟨rfl, rfl, rfl, ?_⟩
  rintro ⟨hnd, hbound⟩
  have hspawn_nd : ((g.bubbles ++ [spawnedBubble g d]).map Bubble.id).Nodup := by
    rw [List.map_append, List.nodup_append]
    refine ⟨hnd, List.nodup_singleton _, ?_⟩
    intro x hx hx2
    simp only [List.map_cons, List.map_nil, List.mem_singleton] at hx2
    obtain ⟨b, hb, hbid⟩ := List.mem_map.mp hx
    rw [hx2] at hbid
    have hbn : b.id = g.next_bubble_id := hbid
    exact absurd (hbn ▸ hbound b hb) (lt_irrefl _)
  have hspawn_bound : ∀ b ∈ g.bubbles ++ [spawnedBubble g d], b.id < g.next_bubble_id + 1 := by
    intro b hb
    rcases List.mem_append.mp hb with hold | hnew
    · exact Nat.lt_succ_of_lt (hbound b hold)
    · rw [List.mem_singleton.mp hnew]
      exact Nat.lt_succ_self _
  refine ⟨⟨hspawn_nd, hspawn_bound⟩, ⟨?_, ?_⟩, ⟨?_, ?_⟩, ⟨by simp [reset], by simp [reset]⟩⟩
  · -- update keeps ids duplicate-free
    rw [update_bubbles_eq]
    have hsub : (((if g.bubbles.length < g.max_bubbles ∧
          1 / g.spawn_rate ≤ ct - g.last_spawn_time
        then g.bubbles ++ [spawnedBubble g d] else g.bubbles).map
          (updateBubble g.screen_width g.screen_height dt)).filter
            (fun b => !(offScreen b))).Sublist
        ((if g.bubbles.length < g.max_bubbles ∧
            1 / g.spawn_rate ≤ ct - g.last_spawn_time
          then g.bubbles ++ [spawnedBubble g d] else g.bubbles).map
            (updateBubble g.screen_width g.screen_height dt)) := List.filter_sublist _
    refine List.Nodup.sublist (hsub.map Bubble.id) ?_
    rw [map_id_updateBubble]
    split
    · exact hspawn_nd
    · exact hnd
  · -- update keeps ids below the (possibly bumped) counter
    intro b hb
    rw [update_bubbles_eq] at hb
    rw [update_next_eq]
    by_cases hcond : g.bubbles.length < g.max_bubbles ∧
      1 / g.spawn_rate ≤ ct - g.last_spawn_time
    · rw [if_pos hcond] at hb ⊢
      obtain ⟨hm, -⟩ := List.mem_filter.mp hb
      obtain ⟨b1, hb1, heq⟩ := List.mem_map.mp hm
      have hid : b.id = b1.id := by rw [← heq]; exact rfl
      rw [hid]
      exact hspawn_bound b1 hb1
    · rw [if_neg hcond] at hb ⊢
      obtain ⟨hm, -⟩ := List.mem_filter.mp hb
      obtain ⟨b1, hb1, heq⟩ := List.mem_map.mp hm
      have hid : b.id = b1.id := by rw [← heq]; exact rfl
      rw [hid]
      exact hbound b1 hb1
  · -- check_collisions keeps ids duplicate-free
    exact List.Nodup.sublist
      ((check_collisions_bubbles_sublist g px py s).map Bubble.id) hnd
  · -- check_collisions leaves the counter alone and only removes bubbles
    intro b hb
    have hnext : (check_collisions g px py s).2.next_bubble_id = g.next_bubble_id := by
      cases s <;> rfl
    rw [hnext]
    exact hbound b ((check_collisions_bubbles_sublist g px py s).subset hb)

/-- Witness for C10 at a concrete state, discharging the invariant. -/
theorem bubble_id_spec_witness :
    (spawnedBubble gC1 dC7).id = gC1.next_bubble_id ∧
      idInvariant (update gC1 0 0 dC7) ∧ idInvariant (reset gC1 5) := by
  have hmain := bubble_id_spec gC1 dC7 0 0 (1/2) (1/2) true
  have hinv : idInvariant gC1 := by
    refine ⟨by simp [gC1, bC1], ?_⟩
    intro b hb
    simp only [gC1, List.mem_singleton] at hb
    subst hb
    simp [bC1, gC1]
  exact ⟨hmain.1, (hmain.2.2.2 hinv).2.1, (hmain.2.2.2 hinv).2.2.2⟩

/-! ### menu_system.py: menu state and gesture-driven selection

The camera's `read()` result is modelled by the optional frame dimensions
`(w, h)` it yields; `time.time()` is the explicit `current_time`. -/

/-- Python `int(...)` truncates toward zero; on a rational `num/den`
(`den > 0`) that is `Int.tdiv` of numerator by denominator. -/
def pyInt (q : ℚ) : ℤ :=
  q.num.tdiv q.den

/-- menu_system.py `MenuItem`: label, center position, fixed 200 x 50 box. -/
structure MenuItem where
  text : String
  position : ℤ × ℤ
  width : ℤ := 200
  height : ℤ := 50
  is_hovered : Bool := false
deriving DecidableEq

/-- The mutable state of menu_system.py `MenuSystem`. -/
structure MenuState where
  menu_items : List MenuItem
  selected_index : ℕ := 0
  last_selection_time : ℚ := 0
  selection_cooldown : ℚ := 1
deriving DecidableEq

/-- menu_system.py `check_menu_selection` loop test: is the finger pixel
inside the item's axis-aligned box?  (`item.width // 2` is Python floor
division, which `Int` division by the positive literal 2 matches.) -/
def inBox (item : MenuItem) (fx fy : ℤ) : Bool :=
  decide (item.position.1 - item.width / 2 ≤ fx ∧ fx ≤ item.position.1 + item.width / 2 ∧
    item.position.2 - item.height / 2 ≤ fy ∧ fy ≤ item.position.2 + item.height / 2)

/-- menu_system.py `check_menu_selection`: `None` unless a hand is present,
the cooldown has elapsed, the hand is closed, the fingertip exists and the
camera yields a frame; then the first menu item (in registration order)
containing the fingertip pixel is selected and the cooldown clock is stamped
with the current time. -/
def check_menu_selection (ms : MenuState) (detection : Option DetectionResult)
    (current_time : ℚ) (frame_dims : Option (ℤ × ℤ)) : Option ℕ × MenuState :=
  match detection with
  | none => (none, ms)
  | some dr =>
    match dr.hands with
    | [] => (none, ms)
    | hand :: _ =>
      if current_time - ms.last_selection_time < ms.selection_cooldown then (none, ms)
      else if !(is_hand_closed hand) then (none, ms)
      else
        match get_index_finger_tip hand with
        | none => (none, ms)
        | some finger_tip =>
          match frame_dims with
          | none => (none, ms)
          | some wh =>
            let finger_x := pyInt (finger_tip.x * wh.1)
            let finger_y := pyInt (finger_tip.y * wh.2)
            match ms.menu_items.findIdx? (fun item => inBox item finger_x finger_y) with
            | some idx => (some idx, { ms with last_selection_time := current_time })
            | none => (none, ms)


/-- A successful `findIdx?` means some list element satisfies the test. -/
theorem findIdx?_some_mem {α : Type} (p : α → Bool) :
    ∀ (l : List α) (i idx : ℕ), l.findIdx? p i = some idx → ∃ x ∈ l, p x = true := by
  intro l
  induction l with
  | nil => intro i idx h; simp [List.findIdx?_nil] at h
  | cons a t ih =>
    intro i idx h
    rw [List.findIdx?_cons] at h
    by_cases hp : p a = true
    · exact ⟨a, by simp, hp⟩
    · rw [if_neg hp] at h
      obtain ⟨x, hx, hpx⟩ := ih (i + 1) idx h
      exact ⟨x, List.mem_cons_of_mem a hx, hpx⟩

/-- `check_menu_selection` unfolded one step on a present detection. -/
theorem cms_some_eq (ms : MenuState) (dr : DetectionResult) (t : ℚ)
    (fr : Option (ℤ × ℤ)) :
    check_menu_selection ms (some dr) t fr =
      match dr.hands with
      | [] => (none, ms)
      | hand :: _ =>
        if t - ms.last_selection_time < ms.selection_cooldown then (none, ms)
        else if !(is_hand_closed hand) then (none, ms)
        else
          match get_index_finger_tip hand with
          | none => (none, ms)
          | some finger_tip =>
            match fr with
            | none => (none, ms)
            | some wh =>
              match ms.menu_items.findIdx? (fun item =>
                  inBox item (pyInt (finger_tip.x * wh.1)) (pyInt (finger_tip.y * wh.2))) with
              | some idx => (some idx, { ms with last_selection_time := t })
              | none => (none, ms) := rfl

/-- Firing inversion: a successful selection implies a present closed hand,
an elapsed cooldown, a fingertip, frame dimensions, and a containing box. -/
theorem cms_fire_inv (ms : MenuState) (det : Option DetectionResult) (t : ℚ)
    (fr : Option (ℤ × ℤ)) (idx : ℕ)
    (hfire : (check_menu_selection ms det t fr).1 = some idx) :
    ∃ dr hand rest tip w h, det = some dr ∧ dr.hands = hand :: rest ∧
      is_hand_closed hand = true ∧
      ms.selection_cooldown ≤ t - ms.last_selection_time ∧
      get_index_finger_tip hand = some tip ∧ fr = some (w, h) ∧
      ∃ item ∈ ms.menu_items,
        inBox item (pyInt (tip.x * w)) (pyInt (tip.y * h)) = true := by
  cases det with
  | none => simp [check_menu_selection] at hfire
  | some dr =>
    rw [cms_some_eq] at hfire
    cases hh : dr.hands with
    | nil => rw [hh] at hfire; simp at hfire
    | cons hand rest =>
      rw [hh] at hfire
      simp only [] at hfire
      by_cases hcool : t - ms.last_selection_time < ms.selection_cooldown
      · rw [if_pos hcool] at hfire
        simp at hfire
      · rw [if_neg hcool] at hfire
        cases hcl : is_hand_closed hand with
        | false =>
          rw [hcl] at hfire
          simp at hfire
        | true =>
          rw [hcl] at hfire
          simp only [Bool.not_true, Bool.false_eq_true, if_false] at hfire
          cases htip : get_index_finger_tip hand with
          | none => rw [htip] at hfire; simp at hfire
          | some tip =>
            rw [htip] at hfire
            simp only [] at hfire
            cases fr with
            | none => simp at hfire
            | some wh =>
              simp only [] at hfire
              cases hfind : ms.menu_items.findIdx? (fun item =>
                  inBox item (pyInt (tip.x * wh.1)) (pyInt (tip.y * wh.2))) with
              | none => rw [hfind] at hfire; simp at hfire
              | some j =>
                rw [hfind] at hfire
                simp only [Option.some.injEq] at hfire
                subst hfire
                exact ⟨dr, hand, rest, tip, wh.1, wh.2, rfl, hh, hcl,
                  le_of_not_lt hcool, htip, by simp,
                  findIdx?_some_mem _ ms.menu_items 0 j hfind⟩

/-- The selection step stamps the cooldown clock exactly when it fires. -/
theorem cms_state_char (ms : MenuState) (det : Option DetectionResult) (t : ℚ)
    (fr : Option (ℤ × ℤ)) :
    ((check_menu_selection ms det t fr).1 = none ∧
        (check_menu_selection ms det t fr).2 = ms) ∨
      ((check_menu_selection ms det t fr).1 ≠ none ∧
        (check_menu_selection ms det t fr).2 =
          { ms with last_selection_time := t }) := by
  cases det with
  | none => exact Or.inl ⟨rfl, rfl⟩
  | some dr =>
    rw [cms_some_eq]
    cases hh : dr.hands with
    | nil => exact Or.inl ⟨rfl, rfl⟩
    | cons hand rest =>
      simp only []
      by_cases hcool : t - ms.last_selection_time < ms.selection_cooldown
      · rw [if_pos hcool]; exact Or.inl ⟨rfl, rfl⟩
      · rw [if_neg hcool]
        cases hcl : is_hand_closed hand with
        | false => exact Or.inl ⟨rfl, rfl⟩
        | true =>
          simp only [Bool.not_true, Bool.false_eq_true, if_false]
          cases htip : get_index_finger_tip hand with
          | none => exact Or.inl ⟨rfl, rfl⟩
          | some tip =>
            simp only []
            cases fr with
            | none => exact Or.inl ⟨rfl, rfl⟩
            | some wh =>
              simp only []
              cases hfind : ms.menu_items.findIdx? (fun item =>
                  inBox item (pyInt (tip.x * wh.1)) (pyInt (tip.y * wh.2))) with
              | none => exact Or.inl ⟨rfl, rfl⟩
              | some j => exact Or.inr ⟨by simp, rfl⟩

/-- Within the cooldown window no attempt can fire and nothing changes. -/
theorem cms_cooldown_blocks (ms : MenuState) (det : Option DetectionResult)
    (t : ℚ) (fr : Option (ℤ × ℤ))
    (hlt : t - ms.last_selection_time < ms.selection_cooldown) :
    check_menu_selection ms det t fr = (none, ms) := by
  cases det with
  | none => rfl
  | some dr =>
    rw [cms_some_eq]
    cases hh : dr.hands with
    | nil => rfl
    | cons hand rest =>
      simp only []
      rw [if_pos hlt]

/-- With a closed hand pointing at a menu item after the cooldown, the
selection fires and stamps the clock. -/
theorem cms_fires (ms : MenuState) (dr : DetectionResult) (t : ℚ) (w h : ℤ)
    (hand : Hand) (rest : List Hand) (tip : Point) (idx : ℕ)
    (hh : dr.hands = hand :: rest) (hclosed : is_hand_closed hand = true)
    (htip : get_index_finger_tip hand = some tip)
    (hcool : ms.selection_cooldown ≤ t - ms.last_selection_time)
    (hfind : ms.menu_items.findIdx? (fun item =>
      inBox item (pyInt (tip.x * w)) (pyInt (tip.y * h))) = some idx) :
    check_menu_selection ms (some dr) t (some (w, h)) =
      (some idx, { ms with last_selection_time := t }) := by
  rw [cms_some_eq, hh]
  simp only []
  rw [if_neg (not_lt.mpr hcool), hclosed]
  simp only [Bool.not_true, Bool.false_eq_true, if_false]
  rw [htip]
  simp only []
  rw [hfind]

/-- C4: a menu selection fires only when the gesture is closed AND the
fingertip pixel lies inside some item's box AND at least the cooldown has
elapsed since the last successful selection; the cooldown clock is stamped
exactly on a successful fire (otherwise the state is untouched); while the
cooldown has not elapsed every attempt returns `None` and changes nothing;
and once the cooldown has elapsed, a closed hand pointing inside an item's
box fires again — hence of two attempts 0.5s apart only the first registers,
a third attempt 1.1s after the first registers, and two successful
selections are never less than the cooldown apart. -/
theorem check_menu_selection_spec (ms : MenuState) (det : Option DetectionResult)
    (t : ℚ) (fr : Option (ℤ × ℤ)) :
    (∀ idx, (check_menu_selection ms det t fr).1 = some idx →
      ∃ dr hand rest tip w h, det = some dr ∧ dr.hands = hand :: rest ∧
        is_hand_closed hand = true ∧
        ms.selection_cooldown ≤ t - ms.last_selection_time ∧
        get_index_finger_tip hand = some tip ∧ fr = some (w, h) ∧
        ∃ item ∈ ms.menu_items,
          inBox item (pyInt (tip.x * w)) (pyInt (tip.y * h)) = true) ∧
    (((check_menu_selection ms det t fr).1 = none ∧
        (check_menu_selection ms det t fr).2 = ms) ∨
      ((check_menu_selection ms det t fr).1 ≠ none ∧
        (check_menu_selection ms det t fr).2 =
          { ms with last_selection_time := t })) ∧
    (∀ (ms2 : MenuState) (det2 : Option DetectionResult) (t2 : ℚ)
        (fr2 : Option (ℤ × ℤ)),
      t2 - ms2.last_selection_time < ms2.selection_cooldown →
        check_menu_selection ms2 det2 t2 fr2 = (none, ms2)) ∧
    (∀ dr hand rest tip (w h : ℤ) idx, det = some dr → dr.hands = hand :: rest →
      is_hand_closed hand = true → get_index_finger_tip hand = some tip →
      fr = some (w, h) → ms.selection_cooldown ≤ t - ms.last_selection_time →
      ms.menu_items.findIdx?
          (fun item => inBox item (pyInt (tip.x * w)) (pyInt (tip.y * h))) = some idx →
      check_menu_selection ms det t fr =
        (some idx, { ms with last_selection_time := t })) := by
  refine ⟨fun idx hf => cms_fire_inv ms det t fr idx hf, cms_state_char ms det t fr,
    fun ms2 det2 t2 fr2 hlt => cms_cooldown_blocks ms2 det2 t2 fr2 hlt, ?_⟩
  intro dr hand rest tip w h idx hdet hh hclosed htip hfr hcool hfind
  subst hdet
  subst hfr
  exact cms_fires ms dr t w h hand rest tip idx hh hclosed htip hcool hfind

/-- A concrete menu item centered at the fingertip pixel of `closedHand` on a
640 x 480 frame. -/
def itemC4 : MenuItem :=
  { text := "Start Game", position := (320, 384) }

/-- A concrete menu state: one item, cooldown 1s, clock at 0. -/
def msC4 : MenuState :=
  { menu_items := [itemC4] }

/-- A concrete detection result holding the closed hand. -/
def drC4 : DetectionResult :=
  { hands := [closedHand], timestamp := 0 }

/-- `closedHand` evaluates as closed (4 of 5 fingers bent). -/
theorem closedHand_is_closed : is_hand_closed closedHand = true := by
  norm_num [is_hand_closed, closedFingers, lm, fingerBent, closedHand, fingertips,
    pip_joints, THUMB_TIP, THUMB_IP, INDEX_FINGER_TIP, INDEX_FINGER_PIP,
    MIDDLE_FINGER_TIP, MIDDLE_FINGER_PIP, RING_FINGER_TIP, RING_FINGER_PIP,
    PINKY_TIP, PINKY_PIP, WRIST]

/-- The fingertip pixel of `closedHand` falls in `itemC4`'s box. -/
theorem closedHand_finds_item :
    msC4.menu_items.findIdx? (fun item =>
      inBox item (pyInt ((1/2 : ℚ) * (640 : ℤ))) (pyInt ((4/5 : ℚ) * (480 : ℤ)))) =
      some 0 := by
  norm_num [msC4, itemC4, pyInt, inBox, List.findIdx?_cons]

/-- Witness for C4: the spec scenario at concrete times — an attempt at
t = 100 fires, one 0.5s later is blocked, one 1.1s after the first fires. -/
theorem check_menu_selection_spec_witness :
    check_menu_selection msC4 (some drC4) 100 (some (640, 480)) =
        (some 0, { msC4 with last_selection_time := 100 }) ∧
      check_menu_selection { msC4 with last_selection_time := 100 } (some drC4)
          (201/2) (some (640, 480)) =
        (none, { msC4 with last_selection_time := 100 }) ∧
      check_menu_selection { msC4 with last_selection_time := 100 } (some drC4)
          (1011/10) (some (640, 480)) =
        (some 0, { msC4 with last_selection_time := 1011/10 }) := by
  have hmain := check_menu_selection_spec msC4 (some drC4) 100 (some (640, 480))
  have hmain2 := check_menu_selection_spec { msC4 with last_selection_time := 100 }
    (some drC4) (1011/10) (some (640, 480))
  refine ⟨?_, ?_, ?_⟩
  · exact hmain.2.2.2 drC4 closedHand [] ⟨1/2, 4/5, none⟩ 640 480 0 rfl rfl
      closedHand_is_closed rfl rfl (by norm_num [msC4]) closedHand_finds_item
  · exact hmain.2.2.1 { msC4 with last_selection_time := 100 } (some drC4)
      (201/2) (some (640, 480)) (by norm_num [msC4])
  · exact hmain2.2.2.2 drC4 closedHand [] ⟨1/2, 4/5, none⟩ 640 480 0 rfl rfl
      closedHand_is_closed rfl rfl (by norm_num [msC4]) closedHand_finds_item

/-! ### bubble_game_viewer.py: per-tick pointer smoothing (run loop) -/

/-- bubble_game_viewer.py `run`: `smoothing_factor = 0.15`. -/
def smoothing_factor : ℚ := 15 / 100

/-- The pointer-related loop variables of bubble_game_viewer.py `run`. -/
structure PointerState where
  pointer_x : ℚ
  pointer_y : ℚ
  target_pointer_x : ℚ
  target_pointer_y : ℚ
  is_shooting : Bool
deriving DecidableEq

/-- bubble_game_viewer.py `run`, the per-tick pointer/shooting update
(lines handling `detection_result`): with a detected hand, an existing
fingertip updates the target and applies one smoothing step, and the
shooting flag is recomputed from the hand in any case; with no hand the
target recenters to (0.5, 0.5), one smoothing step runs and shooting is
forced off.  A hand without a fingertip leaves target and pointer alone. -/
def pointerTick (ps : PointerState) (detection : Option DetectionResult) : PointerState :=
  match detection with
  | some dr =>
    match dr.hands with
    | hand :: _ =>
      let ps1 :=
        match get_index_finger_tip hand with
        | some finger_tip =>
          { ps with
              target_pointer_x := finger_tip.x,
              target_pointer_y := finger_tip.y,
              pointer_x := ps.pointer_x + (finger_tip.x - ps.pointer_x) * smoothing_factor,
              pointer_y := ps.pointer_y + (finger_tip.y - ps.pointer_y) * smoothing_factor }
        | none => ps
      { ps1 with is_shooting := is_hand_closed hand }
    | [] =>
      { ps with
          is_shooting := false,
          target_pointer_x := 1/2, target_pointer_y := 1/2,
          pointer_x := ps.pointer_x + (1/2 - ps.pointer_x) * smoothing_factor,
          pointer_y := ps.pointer_y + (1/2 - ps.pointer_y) * smoothing_factor }
  | none =>
      { ps with
          is_shooting := false,
          target_pointer_x := 1/2, target_pointer_y := 1/2,
          pointer_x := ps.pointer_x + (1/2 - ps.pointer_x) * smoothing_factor,
          pointer_y := ps.pointer_y + (1/2 - ps.pointer_y) * smoothing_factor }

/-- `pointerTick` unfolded one step on a present detection. -/
theorem pointerTick_some_eq (ps : PointerState) (dr : DetectionResult) :
    pointerTick ps (some dr) =
      match dr.hands with
      | hand :: _ =>
        let ps1 :=
          match get_index_finger_tip hand with
          | some finger_tip =>
            { ps with
                target_pointer_x := finger_tip.x,
                target_pointer_y := finger_tip.y,
                pointer_x := ps.pointer_x + (finger_tip.x - ps.pointer_x) * smoothing_factor,
                pointer_y := ps.pointer_y + (finger_tip.y - ps.pointer_y) * smoothing_factor }
          | none => ps
        { ps1 with is_shooting := is_hand_closed hand }
      | [] =>
        { ps with
            is_shooting := false,
            target_pointer_x := 1/2, target_pointer_y := 1/2,
            pointer_x := ps.pointer_x + (1/2 - ps.pointer_x) * smoothing_factor,
            pointer_y := ps.pointer_y + (1/2 - ps.pointer_y) * smoothing_factor } := rfl

/-- With a first hand carrying a fingertip, the tick sets the target to the
anchor, applies one smoothing step per axis and recomputes shooting. -/
theorem pointerTick_anchor (ps : PointerState) (dr : DetectionResult) (hand : Hand)
    (rest : List Hand) (tip : Point) (hh : dr.hands = hand :: rest)
    (htip : get_index_finger_tip hand = some tip) :
    pointerTick ps (some dr) =
      { pointer_x := ps.pointer_x + (tip.x - ps.pointer_x) * smoothing_factor,
        pointer_y := ps.pointer_y + (tip.y - ps.pointer_y) * smoothing_factor,
        target_pointer_x := tip.x,
        target_pointer_y := tip.y,
        is_shooting := is_hand_closed hand } := by
  rw [pointerTick_some_eq, hh]
  simp only []
  rw [htip]

/-- With a first hand lacking the fingertip anchor, the tick leaves target
and pointer alone but still recomputes shooting from the hand. -/
theorem pointerTick_no_anchor (ps : PointerState) (dr : DetectionResult) (hand : Hand)
    (rest : List Hand) (hh : dr.hands = hand :: rest)
    (htip : get_index_finger_tip hand = none) :
    pointerTick ps (some dr) = { ps with is_shooting := is_hand_closed hand } := by
  rw [pointerTick_some_eq, hh]
  simp only []
  rw [htip]

/-- One smoothing step lands between the old position and the target. -/
theorem smooth_between (p t : ℚ) :
    min p t ≤ p + (t - p) * (15/100) ∧ p + (t - p) * (15/100) ≤ max p t := by
  rcases le_total p t with hle | hle
  · rw [min_eq_left hle, max_eq_right hle]
    constructor <;> nlinarith
  · rw [min_eq_right hle, max_eq_left hle]
    constructor <;> nlinarith

/-- C5: the smoothing step is `p += (target - p) * 0.15` applied
independently per axis — both when an anchor sets the target and when the
target recenters — and it never overshoots: the new pointer coordinate lies
between the old one and the target. -/
theorem pointer_smoothing_spec (ps : PointerState) (dr : DetectionResult)
    (hand : Hand) (rest : List Hand) (tip : Point) (hh : dr.hands = hand :: rest)
    (htip : get_index_finger_tip hand = some tip) :
    ((pointerTick ps (some dr)).pointer_x =
        ps.pointer_x + (tip.x - ps.pointer_x) * (15/100) ∧
      (pointerTick ps (some dr)).pointer_y =
        ps.pointer_y + (tip.y - ps.pointer_y) * (15/100) ∧
      (pointerTick ps (some dr)).target_pointer_x = tip.x ∧
      (pointerTick ps (some dr)).target_pointer_y = tip.y) ∧
    (min ps.pointer_x tip.x ≤ (pointerTick ps (some dr)).pointer_x ∧
      (pointerTick ps (some dr)).pointer_x ≤ max ps.pointer_x tip.x ∧
      min ps.pointer_y tip.y ≤ (pointerTick ps (some dr)).pointer_y ∧
      (pointerTick ps (some dr)).pointer_y ≤ max ps.pointer_y tip.y) ∧
    ((pointerTick ps none).pointer_x =
        ps.pointer_x + (1/2 - ps.pointer_x) * (15/100) ∧
      (pointerTick ps none).pointer_y =
        ps.pointer_y + (1/2 - ps.pointer_y) * (15/100)) := by
  have heq := pointerTick_anchor ps dr hand rest tip hh htip
  refine ⟨⟨by rw [heq]; rfl, by rw [heq]; rfl, by rw [heq], by rw [heq]⟩, ?_, rfl, rfl⟩
  rw [heq]
  exact ⟨(smooth_between ps.pointer_x tip.x).1, (smooth_between ps.pointer_x tip.x).2,
    (smooth_between ps.pointer_y tip.y).1, (smooth_between ps.pointer_y tip.y).2⟩

/-- A 9-landmark hand whose index fingertip (landmark 8) is at (1, 1). -/
def handC5 : Hand :=
  ⟨[⟨0, 0, none⟩, ⟨0, 0, none⟩, ⟨0, 0, none⟩, ⟨0, 0, none⟩, ⟨0, 0, none⟩,
    ⟨0, 0, none⟩, ⟨0, 0, none⟩, ⟨0, 0, none⟩, ⟨1, 1, none⟩], "Right", 1⟩

/-- Pointer at screen center, shooting off. -/
def psC5 : PointerState := ⟨1/2, 1/2, 1/2, 1/2, false⟩

/-- A detection holding `handC5`. -/
def drC5 : DetectionResult := ⟨[handC5], 0⟩

/-- Witness for C5: pointer (0.5, 0.5) with target (1, 1) becomes exactly
(0.575, 0.575) after one tick. -/
theorem pointer_smoothing_spec_witness :
    (pointerTick psC5 (some drC5)).pointer_x = 23/40 ∧
      (pointerTick psC5 (some drC5)).pointer_y = 23/40 := by
  have hmain := pointer_smoothing_spec psC5 drC5 handC5 [] ⟨1, 1, none⟩ rfl rfl
  constructor
  · rw [hmain.1.1]
    norm_num [psC5]
  · rw [hmain.1.2.1]
    norm_num [psC5]

/-- C6 counterexample state: pointer at origin, stale target (0.9, 0.9). -/
def psC6 : PointerState := ⟨0, 0, 9/10, 9/10, false⟩

/-- A detected hand with a single landmark: no index fingertip anchor. -/
def handC6 : Hand := ⟨[⟨1/2, 1/2, none⟩], "Left", 1⟩

/-- A detection holding only `handC6`. -/
def drC6 : DetectionResult := ⟨[handC6], 0⟩

/-- C6 as stated is false: on a tick whose (single) detected hand has no
fingertip anchor, the target is NOT forced to (0.5, 0.5) — it stays at its
stale value — and no smoothing step runs (the pointer does not move). -/
theorem pointer_recenter_counterexample :
    (pointerTick psC6 (some drC6)).target_pointer_x ≠ 1/2 ∧
      (pointerTick psC6 (some drC6)).pointer_x = psC6.pointer_x := by
  constructor
  · show (9/10 : ℚ) ≠ 1/2
    norm_num
  · rfl

/-- C6 amended: if the first detected hand has a fingertip anchor, the target
is set to the anchor and one smoothing step runs; if NO hand is detected (or
no detection result exists), the target is forced to (0.5, 0.5), one
smoothing step still runs and shooting is forced false; but if a hand is
detected without a fingertip anchor, target and pointer are left unchanged
while shooting is still recomputed from that hand. -/
theorem pointer_tick_spec (ps : PointerState) :
    (∀ (dr : DetectionResult) (hand : Hand) (rest : List Hand) (tip : Point),
      dr.hands = hand :: rest → get_index_finger_tip hand = some tip →
      pointerTick ps (some dr) =
        { pointer_x := ps.pointer_x + (tip.x - ps.pointer_x) * smoothing_factor,
          pointer_y := ps.pointer_y + (tip.y - ps.pointer_y) * smoothing_factor,
          target_pointer_x := tip.x,
          target_pointer_y := tip.y,
          is_shooting := is_hand_closed hand }) ∧
    (pointerTick ps none =
      { ps with
          is_shooting := false,
          target_pointer_x := 1/2, target_pointer_y := 1/2,
          pointer_x := ps.pointer_x + (1/2 - ps.pointer_x) * smoothing_factor,
          pointer_y := ps.pointer_y + (1/2 - ps.pointer_y) * smoothing_factor }) ∧
    (∀ dr : DetectionResult, dr.hands = [] →
      pointerTick ps (some dr) =
        { ps with
            is_shooting := false,
            target_pointer_x := 1/2, target_pointer_y := 1/2,
            pointer_x := ps.pointer_x + (1/2 - ps.pointer_x) * smoothing_factor,
            pointer_y := ps.pointer_y + (1/2 - ps.pointer_y) * smoothing_factor }) ∧
    (∀ (dr : DetectionResult) (hand : Hand) (rest : List Hand),
      dr.hands = hand :: rest → get_index_finger_tip hand = none →
      pointerTick ps (some dr) = { ps with is_shooting := is_hand_closed hand }) := by
  refine ⟨fun dr hand rest tip hh htip => pointerTick_anchor ps dr hand rest tip hh htip,
    rfl, ?_, fun dr hand rest hh htip => pointerTick_no_anchor ps dr hand rest hh htip⟩
  intro dr hh
  rw [pointerTick_some_eq, hh]

/-- Witness for the amended C6 at concrete states: the anchor case, the
no-hand case and the anchorless-hand case each behave as amended. -/
theorem pointer_tick_spec_witness :
    pointerTick psC6 (some drC5) =
        { pointer_x := psC6.pointer_x + (1 - psC6.pointer_x) * smoothing_factor,
          pointer_y := psC6.pointer_y + (1 - psC6.pointer_y) * smoothing_factor,
          target_pointer_x := 1,
          target_pointer_y := 1,
          is_shooting := is_hand_closed handC5 } ∧
      pointerTick psC6 none =
        { psC6 with
            is_shooting := false,
            target_pointer_x := 1/2, target_pointer_y := 1/2,
            pointer_x := psC6.pointer_x + (1/2 - psC6.pointer_x) * smoothing_factor,
            pointer_y := psC6.pointer_y + (1/2 - psC6.pointer_y) * smoothing_factor } ∧
      pointerTick psC6 (some drC6) = { psC6 with is_shooting := is_hand_closed handC6 } := by
  have hmain := pointer_tick_spec psC6
  exact ⟨hmain.1 drC5 handC5 [] ⟨1, 1, none⟩ rfl rfl, hmain.2.1,
    hmain.2.2.2 drC6 handC6 [] rfl rfl⟩
